import Mathlib

/-!
Verification of the data-migration (ETL) scripts of the crud-app repository.

The development shallowly embeds the JavaScript/TypeScript migration code:

* the Supabase JSON import script (isInvalidDate, parseDate, importClients,
  importEmployees, importTimePeriods, importRates, importAppointments,
  importAppointmentTypes, verifyImport, main);
* the direct SQL Server migration script (formatDate);
* the JSON export script (exportTableToJson).

JavaScript runtime primitives (truthiness, String.prototype.includes,
new Date parsing, BigInt conversion) are modelled as executable Lean
functions.  String operations are implemented structurally over List Char
so that every definition evaluates inside the kernel.

Modelling assumptions, stated once here:

* new Date(s) is modelled on the date renderings that occur in the SQL
  Server JSON exports, namely "YYYY-MM-DD" optionally followed by
  " HH:MM" or " HH:MM:SS"; every other string maps to the invalid date.
  Time zones are ignored (getFullYear returns the parsed year).
* An invalid Date object is a first-class value (JsDate.invalid), because
  new Date never throws: parseDate can and does return it for garbage
  input, mirroring the fact that NaN < 1900 is false in JavaScript.
* The destination database is external to the repository.  Its insert
  semantics are modelled from the repository PRD schema documentation:
  primary keys are unique, foreign keys are enforced at insert time
  (restrict semantics), and the client rejects invalid Date values.
  A transaction is all-or-nothing: the first failing insert rolls the
  whole batch back and surfaces the error.
-/

namespace Migration

/-! ## JavaScript value model -/

/-- A JSON/JavaScript field value as it appears in the exported records:
null, undefined (absent field), boolean, integral number, or string. -/
inductive JsVal where
  | vNull
  | vUndef
  | vBool (b : Bool)
  | vNum (n : Int)
  | vStr (s : String)
deriving DecidableEq

/-- JavaScript truthiness of a field value. -/
def truthy : JsVal → Bool
  | .vNull => false
  | .vUndef => false
  | .vBool b => b
  | .vNum n => n != 0
  | .vStr s => s != ""

/-- The JavaScript idiom x || null: keep a truthy value, else null. -/
def jsOrNull (v : JsVal) : Option JsVal :=
  if truthy v then some v else none

/-- The JavaScript idiom x || d with a default value d. -/
def jsOr (v d : JsVal) : JsVal :=
  if truthy v then v else d

/-- JavaScript String(x) on a field value. -/
def jsValToString : JsVal → String
  | .vNull => "null"
  | .vUndef => "undefined"
  | .vBool b => if b then "true" else "false"
  | .vNum n => toString n
  | .vStr s => s

/-- Truthiness of a nullable string (null, undefined and "" are falsy). -/
def truthyStr : Option String → Bool
  | none => false
  | some s => s != ""

/-! ## Structural string helpers (kernel-reducible) -/

/-- Substring containment on character lists, as in
String.prototype.includes. -/
def listContainsSub (pat : List Char) : List Char → Bool
  | [] => pat.isEmpty
  | c :: cs => pat.isPrefixOf (c :: cs) || listContainsSub pat cs

/-- String.prototype.includes, via the structural character-list search. -/
def jsIncludes (s pat : String) : Bool :=
  listContainsSub pat.data s.data

/-- Split a character list on a separator character (String.split with a
one-character separator). -/
def splitOnChar (sep : Char) : List Char → List (List Char)
  | [] => [[]]
  | c :: cs =>
    let r := splitOnChar sep cs
    if c = sep then [] :: r
    else
      match r with
      | [] => [[c]]
      | h :: t => (c :: h) :: t

/-- Drop leading and trailing whitespace (String.prototype.trim). -/
def trimChars (l : List Char) : List Char :=
  ((l.dropWhile Char.isWhitespace).reverse.dropWhile Char.isWhitespace).reverse

/-- s.split(".")[0] : the prefix before the first dot. -/
def beforeDot (l : List Char) : List Char :=
  l.takeWhile (fun c => c ≠ '.')

/-- Interpret a nonempty all-digit character list as a natural number. -/
def digitsToNat? (l : List Char) : Option Nat :=
  if l.isEmpty then none
  else if l.all Char.isDigit then
    some (l.foldl (fun acc c => acc * 10 + (c.toNat - 48)) 0)
  else none

/-! ## JavaScript Date model -/

/-- A calendar date-time as recovered by the engine date parser. -/
structure CalDate where
  year : Nat
  month : Nat
  day : Nat
  hour : Nat
  minute : Nat
  second : Nat
deriving DecidableEq

/-- A JavaScript Date object: either a valid date-time or the Invalid
Date value (new Date never throws; bad input yields an invalid object). -/
inductive JsDate where
  | valid (d : CalDate)
  | invalid
deriving DecidableEq

def isLeapYear (y : Nat) : Bool :=
  (y % 4 = 0 && y % 100 ≠ 0) || y % 400 = 0

def daysInMonth (y m : Nat) : Nat :=
  if m = 2 then (if isLeapYear y then 29 else 28)
  else if m = 4 ∨ m = 6 ∨ m = 9 ∨ m = 11 then 30
  else 31

/-- Parse the date component "YYYY-MM-DD" (digit groups joined by
hyphens), validating the month and the day of month. -/
def parseDatePart (l : List Char) : Option (Nat × Nat × Nat) :=
  match splitOnChar '-' l with
  | [ys, ms, ds] =>
    match digitsToNat? ys, digitsToNat? ms, digitsToNat? ds with
    | some y, some m, some d =>
      if 1 ≤ m ∧ m ≤ 12 ∧ 1 ≤ d ∧ d ≤ daysInMonth y m then some (y, m, d)
      else none
    | _, _, _ => none
  | _ => none

/-- Parse the time component "HH:MM" or "HH:MM:SS". -/
def parseTimePart (l : List Char) : Option (Nat × Nat × Nat) :=
  match splitOnChar ':' l with
  | [hs, ms] =>
    match digitsToNat? hs, digitsToNat? ms with
    | some h, some m => if h < 24 ∧ m < 60 then some (h, m, 0) else none
    | _, _ => none
  | [hs, ms, ss] =>
    match digitsToNat? hs, digitsToNat? ms, digitsToNat? ss with
    | some h, some m, some s =>
      if h < 24 ∧ m < 60 ∧ s < 60 then some (h, m, s) else none
    | _, _, _ => none
  | _ => none

/-- new Date(s) on the date renderings used by the exports: a date
component optionally followed by one space and a time component.  Any
other input yields the Invalid Date object. -/
def newDate (l : List Char) : JsDate :=
  match splitOnChar ' ' l with
  | [dpart] =>
    match parseDatePart dpart with
    | some (y, m, d) => JsDate.valid ⟨y, m, d, 0, 0, 0⟩
    | none => JsDate.invalid
  | [dpart, tpart] =>
    match parseDatePart dpart, parseTimePart tpart with
    | some (y, m, d), some (h, mi, s) => JsDate.valid ⟨y, m, d, h, mi, s⟩
    | _, _ => JsDate.invalid
  | _ => JsDate.invalid

/-- A nullable date field that may be absent but must not hold the
Invalid Date object (the database client rejects invalid dates). -/
def validOptDate : Option JsDate → Bool
  | some JsDate.invalid => false
  | _ => true

/-! ## JavaScript BigInt model -/

/-- StringToBigInt: trimmed empty input is 0; otherwise an optional sign
followed by decimal digits; anything else throws (none). -/
def strToBigInt (s : String) : Option Int :=
  let t := trimChars s.data
  match t with
  | [] => some 0
  | '-' :: ds =>
    match digitsToNat? ds with
    | some n => some (-(n : Int))
    | none => none
  | '+' :: ds =>
    match digitsToNat? ds with
    | some n => some (n : Int)
    | none => none
  | ds =>
    match digitsToNat? ds with
    | some n => some (n : Int)
    | none => none

/-- BigInt(v) on a field value: integral numbers and booleans convert,
strings go through StringToBigInt, null and undefined throw (none). -/
def jsBigInt : JsVal → Option Int
  | .vNum n => some n
  | .vBool b => some (if b then 1 else 0)
  | .vStr s => strToBigInt s
  | .vNull => none
  | .vUndef => none

end Migration

namespace Migration

/-! ## Date normalization functions from the source scripts -/

/-- Embeds isInvalidDate from the Supabase JSON import script: a date
string is "invalid" when it is null/empty or contains one of the
renderings of the year-zero placeholder. -/
def isInvalidDate (dateStr : Option String) : Bool :=
  match dateStr with
  | none => true
  | some s =>
    if s = "" then true
    else jsIncludes s "0001-01-01" || jsIncludes s "Jan  1 0001" ||
      jsIncludes s "1-01-01"

/-- Embeds parseDate from the Supabase JSON import script: null, the
literal string NULL and invalid placeholder dates map to null; otherwise
the string is stripped of fractional seconds, trimmed and parsed, and a
parsed year before 1900 maps to null.  When the engine parser yields the
Invalid Date object, getFullYear() is NaN, NaN less-than 1900 is false,
and the function returns the invalid object unchanged. -/
def parseDate (dateStr : Option String) : Option JsDate :=
  match dateStr with
  | none => none
  | some s =>
    if s = "" ∨ s = "NULL" then none
    else if isInvalidDate (some s) then none
    else
      let cleaned := trimChars (beforeDot s.data)
      match newDate cleaned with
      | JsDate.invalid => some JsDate.invalid
      | JsDate.valid d => if d.year < 1900 then none else some (JsDate.valid d)

/-- Embeds formatDate from the direct SQL Server migration script
(migrate-from-sqlserver): falsy input maps to null, a rendering
containing 0001-01-01 or Jan 01 0001 maps to null, and any other input
is handed to the date constructor unchanged - no fractional-second
stripping, no NULL-string check and no year-1900 backstop. -/
def formatDate (date : Option String) : Option JsDate :=
  match date with
  | none => none
  | some s =>
    if s = "" then none
    else if jsIncludes s "0001-01-01" || jsIncludes s "Jan 01 0001" then none
    else some (newDate s.data)

/-! ## Source records (fields read by the import script) -/

/-- A Client record as read from client.json. -/
structure ClientSrc where
  ID : Int
  EmployeeID : JsVal
  Client_Name : JsVal
  TxPlan : JsVal
  NPP : JsVal
  Consent : JsVal
  Loaded : JsVal
  Email : JsVal
  Created : Option String
  Updated : Option String
  Next_Appt : Option String
  Active : JsVal
  ClientSP_ID : JsVal
  HashedID : JsVal
  EmployeeSP_ID : JsVal
  Appt_TypeID : JsVal
  Type' : JsVal
deriving DecidableEq

/-- An Employee record as read from employee.json. -/
structure EmployeeSrc where
  ID : Int
  Name : JsVal
  Email : JsVal
  Active : JsVal
  Start_Date : Option String
  EmployeeSP_ID : JsVal
  LastName : JsVal
  FirstName : JsVal
  PayType : JsVal
  GustoId : JsVal
deriving DecidableEq

/-- An AppointmentType record as read from appointmenttype.json. -/
structure ATSrc where
  ID : Int
  Code : JsVal
  Appt_Type : JsVal
  Description : JsVal
  TypeIdForRate : JsVal
deriving DecidableEq

/-- A TimePeriod record as read from timeperiod.json. -/
structure TPSrc where
  ID : Int
  Year : JsVal
  PayPeriod : JsVal
  StartDate : Option String
  EndDate : Option String
deriving DecidableEq

/-- A Rate record as read from rate.json. -/
structure RateSrc where
  ID : Int
  Rate : JsVal
  EmployeeID : JsVal
  Start_Date : Option String
  Active : JsVal
  RateType : JsVal
  End_Date : Option String
  Appt_TypeID : JsVal
  GustoID : JsVal
deriving DecidableEq

/-- An Appointment record as read from appointment.json. -/
structure ApptSrc where
  ID : Int
  ClientID : JsVal
  EmployeeID : JsVal
  RateID : JsVal
  ApptSP_ID : JsVal
  Appt_TypeID : JsVal
  Appt_Date : Option String
  Units : JsVal
  Clinician_Amount : JsVal
  Client_Payment_Status : JsVal
  Duration : JsVal
  HasProgressNote : JsVal
  Created : Option String
  Updated : Option String
  Client_Charge : JsVal
  Flagged : JsVal
  Client_Payment_Status_Desc : JsVal
  Vacation_Hours : JsVal
  Bonus : JsVal
  Correction_Payment : JsVal
  Personal_Note : JsVal
  Reimbursement : JsVal
  Comments : JsVal
deriving DecidableEq

/-! ## Destination rows (the data objects passed to create) -/

/-- The destination Client row built in importClients. -/
structure ClientRow where
  id : Int
  employeeId : Option JsVal
  clientName : Option JsVal
  txPlan : Bool
  npp : Bool
  consent : Bool
  loaded : Option JsVal
  email : Option JsVal
  created : Option JsDate
  updated : Option JsDate
  nextAppt : Option JsDate
  active : Option Bool
  clientSpId : JsVal
  hashedId : String
  employeeSpId : JsVal
  apptTypeId : JsVal
  type : JsVal
deriving DecidableEq

/-- The destination Employee row built in importEmployees. -/
structure EmployeeRow where
  id : Int
  name : Option JsVal
  email : Option JsVal
  active : Int
  startDate : Option JsDate
  employeeSpId : JsVal
  lastName : Option JsVal
  firstName : Option JsVal
  payType : Option JsVal
  gustoId : Option JsVal
deriving DecidableEq

/-- The destination AppointmentType row built in importAppointmentTypes. -/
structure ATRow where
  id : Int
  code : Option String
  apptType : Option JsVal
  description : Option JsVal
  typeIdForRate : Option JsVal
deriving DecidableEq

/-- The destination TimePeriod row built in importTimePeriods. -/
structure TPRow where
  id : Int
  year : JsVal
  payPeriod : JsVal
  startDate : JsDate
  endDate : JsDate
deriving DecidableEq

/-- The destination Rate row built in importRates. -/
structure RateRow where
  id : Int
  rate : Option JsVal
  employeeId : Option JsVal
  startDate : JsDate
  active : Int
  rateType : Option JsVal
  endDate : Option JsDate
  apptTypeId : Option JsVal
  gustoId : Option Int
deriving DecidableEq

/-- The destination Appointment row built in importAppointments. -/
structure ApptRow where
  id : Int
  clientId : JsVal
  employeeId : JsVal
  rateId : Option JsVal
  apptSpId : Option Int
  apptTypeId : Option JsVal
  apptDate : JsDate
  units : Option JsVal
  clinicianAmount : Option JsVal
  clientPaymentStatus : Option JsVal
  duration : JsVal
  hasProgressNote : Bool
  created : JsDate
  updated : JsDate
  clientCharge : Option JsVal
  flagged : Option Bool
  clientPaymentStatusDesc : Option JsVal
  vacationHours : Option JsVal
  bonus : Option JsVal
  correctionPayment : Option JsVal
  personalNote : Option JsVal
  reimbursement : Option JsVal
  comments : Option JsVal
deriving DecidableEq

end Migration

namespace Migration

/-! ## Record transformers (the data objects built by each loader) -/

/-- The per-record transformation of importClients: dates go through
parseDate (the sentinel conversion for Next_Appt), bit fields through
the strict-equality boolean checks, and the remaining fields through
the x-or-null / x-or-default idioms.  The invalidDatesConverted console
counter increments exactly when clientConvertedInvalidDate holds. -/
def clientTransform (record : ClientSrc) : ClientRow :=
  { id := record.ID
    employeeId := jsOrNull record.EmployeeID
    clientName := jsOrNull record.Client_Name
    txPlan := record.TxPlan == JsVal.vNum 1 || record.TxPlan == JsVal.vBool true
    npp := record.NPP == JsVal.vNum 1 || record.NPP == JsVal.vBool true
    consent := record.Consent == JsVal.vNum 1 || record.Consent == JsVal.vBool true
    loaded := jsOrNull record.Loaded
    email := jsOrNull record.Email
    created := parseDate record.Created
    updated := parseDate record.Updated
    nextAppt := parseDate record.Next_Appt
    active := if record.Active == JsVal.vNum 1 || record.Active == JsVal.vBool true
      then some true else none
    clientSpId := jsOr record.ClientSP_ID (JsVal.vNum 0)
    hashedId := jsValToString (jsOr record.HashedID (JsVal.vStr ""))
    employeeSpId := jsOr record.EmployeeSP_ID (JsVal.vNum 0)
    apptTypeId := record.Appt_TypeID
    type := jsOr record.Type' (JsVal.vStr "Individual") }

/-- The condition under which importClients counts a converted invalid
date: the source field is truthy but parseDate returned null. -/
def clientConvertedInvalidDate (record : ClientSrc) : Bool :=
  truthyStr record.Next_Appt && (parseDate record.Next_Appt).isNone

/-- The per-record transformation of importEmployees; the active flag is
normalized to the integer 1 exactly when the source value is the boolean
true or the number 1, and to 0 otherwise. -/
def employeeTransform (record : EmployeeSrc) : EmployeeRow :=
  { id := record.ID
    name := jsOrNull record.Name
    email := jsOrNull record.Email
    active := if record.Active == JsVal.vBool true || record.Active == JsVal.vNum 1
      then 1 else 0
    startDate := parseDate record.Start_Date
    employeeSpId := jsOr record.EmployeeSP_ID (JsVal.vNum 0)
    lastName := jsOrNull record.LastName
    firstName := jsOrNull record.FirstName
    payType := jsOrNull record.PayType
    gustoId := jsOrNull record.GustoId }

/-- The per-record transformation of importAppointmentTypes. -/
def atTransform (record : ATSrc) : ATRow :=
  { id := record.ID
    code := if record.Code ≠ JsVal.vNull ∧ record.Code ≠ JsVal.vUndef
      then some (jsValToString record.Code) else none
    apptType := jsOrNull record.Appt_Type
    description := jsOrNull record.Description
    typeIdForRate := jsOrNull record.TypeIdForRate }

/-- The per-record transformation of importTimePeriods.  Reading
StartDate.split on a null StartDate throws a TypeError, surfaced as an
error value. -/
def tpTransform (record : TPSrc) : Except String TPRow :=
  match record.StartDate with
  | none => Except.error "TypeError: cannot read split of null StartDate"
  | some s =>
    match record.EndDate with
    | none => Except.error "TypeError: cannot read split of null EndDate"
    | some s2 =>
      Except.ok
        { id := record.ID
          year := record.Year
          payPeriod := record.PayPeriod
          startDate := newDate (beforeDot s.data)
          endDate := newDate (beforeDot s2.data) }

/-- The per-record transformation of importRates.  The active flag is
normalized like the employee flag.  Start_Date is required: reading
split of null throws.  GustoID, when truthy, is converted with BigInt
and a conversion failure throws - this conversion is NOT guarded by a
try/catch in importRates. -/
def rateTransform (record : RateSrc) : Except String RateRow :=
  match record.Start_Date with
  | none => Except.error "TypeError: cannot read split of null Start_Date"
  | some s =>
    let row : Option Int → RateRow := fun gustoId =>
      { id := record.ID
        rate := jsOrNull record.Rate
        employeeId := jsOrNull record.EmployeeID
        startDate := newDate (beforeDot s.data)
        active := if record.Active == JsVal.vBool true || record.Active == JsVal.vNum 1
          then 1 else 0
        rateType := jsOrNull record.RateType
        endDate := parseDate record.End_Date
        apptTypeId := jsOrNull record.Appt_TypeID
        gustoId := gustoId }
    if truthy record.GustoID then
      match jsBigInt record.GustoID with
      | some n => Except.ok (row (some n))
      | none => Except.error ("SyntaxError: cannot convert " ++
          jsValToString record.GustoID ++ " to a BigInt")
    else Except.ok (row none)

/-- The required-field validation of importAppointments on one record:
Duration must be truthy or the number 0, and the three core dates must
come back non-null from parseDate. -/
def apptTransform (record : ApptSrc) : Except String ApptRow :=
  if truthy record.Duration = false ∧ record.Duration ≠ JsVal.vNum 0 then
    Except.error ("Record " ++ toString record.ID ++ ": Missing required field Duration")
  else
    match parseDate record.Appt_Date, parseDate record.Created,
        parseDate record.Updated with
    | none, _, _ =>
      Except.error ("Record " ++ toString record.ID ++ ": Invalid or missing Appt_Date")
    | some _, none, _ =>
      Except.error ("Record " ++ toString record.ID ++ ": Invalid or missing Created date")
    | some _, some _, none =>
      Except.error ("Record " ++ toString record.ID ++ ": Invalid or missing Updated date")
    | some apptDate, some created, some updated =>
      let apptSpId := if truthy record.ApptSP_ID then jsBigInt record.ApptSP_ID else none
      Except.ok
        { id := record.ID
          clientId := record.ClientID
          employeeId := record.EmployeeID
          rateId := jsOrNull record.RateID
          apptSpId := apptSpId
          apptTypeId := jsOrNull record.Appt_TypeID
          apptDate := apptDate
          units := jsOrNull record.Units
          clinicianAmount := jsOrNull record.Clinician_Amount
          clientPaymentStatus := jsOrNull record.Client_Payment_Status
          duration := record.Duration
          hasProgressNote := record.HasProgressNote == JsVal.vNum 1 ||
            record.HasProgressNote == JsVal.vBool true
          created := created
          updated := updated
          clientCharge := jsOrNull record.Client_Charge
          flagged := if record.Flagged == JsVal.vNum 1 || record.Flagged == JsVal.vBool true
            then some true else none
          clientPaymentStatusDesc := jsOrNull record.Client_Payment_Status_Desc
          vacationHours := jsOrNull record.Vacation_Hours
          bonus := jsOrNull record.Bonus
          correctionPayment := jsOrNull record.Correction_Payment
          personalNote := jsOrNull record.Personal_Note
          reimbursement := jsOrNull record.Reimbursement
          comments := jsOrNull record.Comments }

/-! ## Destination database model -/

/-- The destination PostgreSQL state: one row list per table. -/
structure DbState where
  appointmentTypes : List ATRow
  employees : List EmployeeRow
  timePeriods : List TPRow
  clients : List ClientRow
  rates : List RateRow
  appointments : List ApptRow
deriving DecidableEq

def emptyDb : DbState := ⟨[], [], [], [], [], []⟩

/-- A single Date value must not be the Invalid Date object. -/
def validDate : JsDate → Bool
  | JsDate.invalid => false
  | JsDate.valid _ => true

/-- A required integer foreign-key value must be a number naming an
existing parent row. -/
def fkNum (ids : List Int) (v : JsVal) : Bool :=
  match v with
  | JsVal.vNum k => ids.contains k
  | _ => false

/-- A nullable foreign-key value: null passes, a number must name an
existing parent row. -/
def fkOpt (ids : List Int) : Option JsVal → Bool
  | none => true
  | some v => fkNum ids v

/-- Modelled from the spec: the destination insert for AppointmentType
(primary-key uniqueness; the table has no foreign keys). -/
def dbCreateAppointmentType (st : DbState) (row : ATRow) : Except String DbState :=
  if st.appointmentTypes.any (fun x => x.id == row.id) then
    Except.error "Unique constraint failed on AppointmentType.id"
  else Except.ok { st with appointmentTypes := st.appointmentTypes ++ [row] }

/-- Modelled from the spec: the destination insert for Employee
(primary-key uniqueness; invalid Date values are rejected). -/
def dbCreateEmployee (st : DbState) (row : EmployeeRow) : Except String DbState :=
  if st.employees.any (fun x => x.id == row.id) then
    Except.error "Unique constraint failed on Employee.id"
  else if validOptDate row.startDate = false then
    Except.error "Invalid Date value for Employee.startDate"
  else Except.ok { st with employees := st.employees ++ [row] }

/-- Modelled from the spec: the destination insert for TimePeriod
(primary-key uniqueness; the NOT NULL dates must be valid). -/
def dbCreateTimePeriod (st : DbState) (row : TPRow) : Except String DbState :=
  if st.timePeriods.any (fun x => x.id == row.id) then
    Except.error "Unique constraint failed on TimePeriod.id"
  else if validDate row.startDate = false ∨ validDate row.endDate = false then
    Except.error "Invalid Date value for TimePeriod"
  else Except.ok { st with timePeriods := st.timePeriods ++ [row] }

/-- Modelled from the spec: the destination insert for Client
(primary-key uniqueness, the NOT NULL foreign key apptTypeId into
AppointmentType, the nullable foreign key employeeId into Employee,
and rejection of invalid Date values). -/
def dbCreateClient (st : DbState) (row : ClientRow) : Except String DbState :=
  if st.clients.any (fun x => x.id == row.id) then
    Except.error "Unique constraint failed on Client.id"
  else if fkNum (st.appointmentTypes.map ATRow.id) row.apptTypeId = false then
    Except.error "Foreign key constraint failed on Client.apptTypeId"
  else if fkOpt (st.employees.map EmployeeRow.id) row.employeeId = false then
    Except.error "Foreign key constraint failed on Client.employeeId"
  else if validOptDate row.created = false ∨ validOptDate row.updated = false ∨
      validOptDate row.nextAppt = false then
    Except.error "Invalid Date value for Client"
  else Except.ok { st with clients := st.clients ++ [row] }

/-- Modelled from the spec: the destination insert for Rate
(primary-key uniqueness, nullable foreign keys into Employee and
AppointmentType, and rejection of invalid Date values). -/
def dbCreateRate (st : DbState) (row : RateRow) : Except String DbState :=
  if st.rates.any (fun x => x.id == row.id) then
    Except.error "Unique constraint failed on Rate.id"
  else if fkOpt (st.employees.map EmployeeRow.id) row.employeeId = false then
    Except.error "Foreign key constraint failed on Rate.employeeId"
  else if fkOpt (st.appointmentTypes.map ATRow.id) row.apptTypeId = false then
    Except.error "Foreign key constraint failed on Rate.apptTypeId"
  else if validDate row.startDate = false ∨ validOptDate row.endDate = false then
    Except.error "Invalid Date value for Rate"
  else Except.ok { st with rates := st.rates ++ [row] }

/-- Modelled from the spec: the destination insert for Appointment
(primary-key uniqueness, NOT NULL foreign keys into Client and
Employee, nullable foreign keys into Rate and AppointmentType, a
numeric NOT NULL duration, and rejection of invalid Date values). -/
def dbCreateAppointment (st : DbState) (row : ApptRow) : Except String DbState :=
  if st.appointments.any (fun x => x.id == row.id) then
    Except.error "Unique constraint failed on Appointment.id"
  else if fkNum (st.clients.map ClientRow.id) row.clientId = false then
    Except.error "Foreign key constraint failed on Appointment.clientId"
  else if fkNum (st.employees.map EmployeeRow.id) row.employeeId = false then
    Except.error "Foreign key constraint failed on Appointment.employeeId"
  else if fkOpt (st.rates.map RateRow.id) row.rateId = false then
    Except.error "Foreign key constraint failed on Appointment.rateId"
  else if fkOpt (st.appointmentTypes.map ATRow.id) row.apptTypeId = false then
    Except.error "Foreign key constraint failed on Appointment.apptTypeId"
  else if (match row.duration with | JsVal.vNum _ => false | _ => true) then
    Except.error "Invalid value for Appointment.duration"
  else if validDate row.apptDate = false ∨ validDate row.created = false ∨
      validDate row.updated = false then
    Except.error "Invalid Date value for Appointment"
  else Except.ok { st with appointments := st.appointments ++ [row] }

end Migration

namespace Migration

/-! ## Batching and the six table loaders -/

/-- The fixed batch size used by the import script. -/
def BATCH_SIZE : Nat := 1000

/-- Fuel-indexed batching (structural recursion so that the kernel can
evaluate it); the fuel is instantiated with the list length. -/
def chunksAux (fuel n : Nat) (l : List α) : List (List α) :=
  match fuel, l with
  | 0, _ => []
  | _ + 1, [] => []
  | f + 1, c :: cs => (c :: cs).take n :: chunksAux f n ((c :: cs).drop n)

/-- The batching loop: records.slice(i, i + n) for i = 0, n, 2n, ... -/
def chunks (n : Nat) (l : List α) : List (List α) :=
  chunksAux l.length n l

/-- An entry of the error list accumulated by importAppointments. -/
structure ImportError where
  recordId : JsVal
  error : String
deriving DecidableEq

/-- The observable outcome of one table loader: rows inserted, rows in
failed batches, the accumulated error list, and whether the loader ran
to completion or threw (aborting the whole run). -/
structure ImportOutcome where
  inserted : Nat
  failed : Nat
  errors : List ImportError
  result : Except String Unit

/-- Embeds importAppointmentTypes: the two lookup rows missing from the
original export, appended to the JSON records before insertion. -/
def missingRecords : List ATSrc :=
  [ { ID := 11, Code := JsVal.vStr "00011", Appt_Type := JsVal.vStr "Pro Bono",
      Description := JsVal.vStr
        "Free session for client, clinician gets paid out of the GoFundMe fund",
      TypeIdForRate := JsVal.vNum 11 },
    { ID := 41, Code := JsVal.vStr "00041", Appt_Type := JsVal.vStr "Team Lead",
      Description := JsVal.vStr
        "Pay code that includes Clinical Lead, Clinical Manager, PCC Manager, HR Manager and Client Relationship Manager",
      TypeIdForRate := JsVal.vNum 41 } ]

/-- One-by-one insertion loop of importAppointmentTypes; an insert
failure throws out of the loader (no try/catch). -/
def importATLoop (st : DbState) (inserted : Nat) :
    List ATSrc → DbState × ImportOutcome
  | [] => (st, ⟨inserted, 0, [], Except.ok ()⟩)
  | r :: rs =>
    match dbCreateAppointmentType st (atTransform r) with
    | Except.ok st' => importATLoop st' (inserted + 1) rs
    | Except.error e => (st, ⟨inserted, 0, [], Except.error e⟩)

/-- Embeds importAppointmentTypes from the Supabase JSON import script. -/
def importAppointmentTypes (st : DbState) (records : List ATSrc) :
    DbState × ImportOutcome :=
  importATLoop st 0 (records ++ missingRecords)

/-- One-by-one insertion loop of importEmployees; an insert failure
throws out of the loader (no try/catch). -/
def importEmployeesLoop (st : DbState) (inserted : Nat) :
    List EmployeeSrc → DbState × ImportOutcome
  | [] => (st, ⟨inserted, 0, [], Except.ok ()⟩)
  | r :: rs =>
    match dbCreateEmployee st (employeeTransform r) with
    | Except.ok st' => importEmployeesLoop st' (inserted + 1) rs
    | Except.error e => (st, ⟨inserted, 0, [], Except.error e⟩)

/-- Embeds importEmployees from the Supabase JSON import script. -/
def importEmployees (st : DbState) (records : List EmployeeSrc) :
    DbState × ImportOutcome :=
  importEmployeesLoop st 0 records

/-- The map phase of a batched loader: evaluate the per-record callback
left to right, surfacing the first thrown error (as batch.map does when
the callback throws). -/
def mapTransform (f : α → Except String β) : List α → Except String (List β)
  | [] => Except.ok []
  | a :: as =>
    match f a with
    | Except.error e => Except.error e
    | Except.ok b =>
      match mapTransform f as with
      | Except.error e => Except.error e
      | Except.ok bs => Except.ok (b :: bs)

/-- The transaction phase of a batched loader: run the create calls in
order; the first failure aborts and rolls the whole batch back. -/
def insertAll (ins : DbState → ρ → Except String DbState) (st : DbState) :
    List ρ → Except String DbState
  | [] => Except.ok st
  | r :: rs =>
    match ins st r with
    | Except.error e => Except.error e
    | Except.ok st' => insertAll ins st' rs

/-- One batch of importTimePeriods: build every create call of the
batch (the map phase), then run them as one all-or-nothing
transaction. -/
def tpBatch (st : DbState) (batch : List TPSrc) : Except String DbState :=
  match mapTransform tpTransform batch with
  | Except.error e => Except.error e
  | Except.ok rows => insertAll dbCreateTimePeriod st rows

/-- Batched insertion loop of importTimePeriods; a batch failure throws
out of the loader (no try/catch), leaving earlier committed batches in
place. -/
def importTPLoop (st : DbState) (inserted : Nat) :
    List (List TPSrc) → DbState × ImportOutcome
  | [] => (st, ⟨inserted, 0, [], Except.ok ()⟩)
  | b :: bs =>
    match tpBatch st b with
    | Except.ok st' => importTPLoop st' (inserted + b.length) bs
    | Except.error e => (st, ⟨inserted, 0, [], Except.error e⟩)

/-- Embeds importTimePeriods from the Supabase JSON import script. -/
def importTimePeriods (st : DbState) (records : List TPSrc) :
    DbState × ImportOutcome :=
  importTPLoop st 0 (chunks BATCH_SIZE records)

/-- One batch of importClients: the per-record transform is total, and
the batch runs as one all-or-nothing transaction. -/
def clientBatch (st : DbState) (batch : List ClientSrc) : Except String DbState :=
  insertAll dbCreateClient st (batch.map clientTransform)

/-- Batched insertion loop of importClients; a batch failure throws out
of the loader (no try/catch), leaving earlier committed batches in
place and never reaching later batches. -/
def importClientsLoop (st : DbState) (inserted : Nat) :
    List (List ClientSrc) → DbState × ImportOutcome
  | [] => (st, ⟨inserted, 0, [], Except.ok ()⟩)
  | b :: bs =>
    match clientBatch st b with
    | Except.ok st' => importClientsLoop st' (inserted + b.length) bs
    | Except.error e => (st, ⟨inserted, 0, [], Except.error e⟩)

/-- Embeds importClients from the Supabase JSON import script. -/
def importClients (st : DbState) (records : List ClientSrc) :
    DbState × ImportOutcome :=
  importClientsLoop st 0 (chunks BATCH_SIZE records)

/-- One batch of importRates: the per-record transform can throw (null
Start_Date, unparseable GustoID), and the batch runs as one
all-or-nothing transaction. -/
def rateBatch (st : DbState) (batch : List RateSrc) : Except String DbState :=
  match mapTransform rateTransform batch with
  | Except.error e => Except.error e
  | Except.ok rows => insertAll dbCreateRate st rows

/-- Batched insertion loop of importRates; a batch failure throws out
of the loader (no try/catch). -/
def importRatesLoop (st : DbState) (inserted : Nat) :
    List (List RateSrc) → DbState × ImportOutcome
  | [] => (st, ⟨inserted, 0, [], Except.ok ()⟩)
  | b :: bs =>
    match rateBatch st b with
    | Except.ok st' => importRatesLoop st' (inserted + b.length) bs
    | Except.error e => (st, ⟨inserted, 0, [], Except.error e⟩)

/-- Embeds importRates from the Supabase JSON import script. -/
def importRates (st : DbState) (records : List RateSrc) :
    DbState × ImportOutcome :=
  importRatesLoop st 0 (chunks BATCH_SIZE records)

/-- One batch of importAppointments: the map phase runs the required
field validation for every record of the batch, then the batch runs as
one all-or-nothing transaction. -/
def apptBatch (st : DbState) (batch : List ApptSrc) : Except String DbState :=
  match mapTransform apptTransform batch with
  | Except.error e => Except.error e
  | Except.ok rows => insertAll dbCreateAppointment st rows

/-- The error-list entry recorded for a failed Appointment batch:
the first and last record identifiers of the batch (a falsy identifier
renders as the string unknown) and the thrown message. -/
def batchErrorEntry (batch : List ApptSrc) (msg : String) : ImportError :=
  let batchStart := match batch.head? with
    | some r => jsOr (JsVal.vNum r.ID) (JsVal.vStr "unknown")
    | none => JsVal.vStr "unknown"
  let batchEnd := match batch.getLast? with
    | some r => jsOr (JsVal.vNum r.ID) (JsVal.vStr "unknown")
    | none => JsVal.vStr "unknown"
  { recordId := batchStart
    error := "Batch failed (IDs " ++ jsValToString batchStart ++ "-" ++
      jsValToString batchEnd ++ "): " ++ msg }

/-- The loop state of importAppointments. -/
structure ApptLoop where
  db : DbState
  inserted : Nat
  failed : Nat
  errors : List ImportError
deriving DecidableEq

/-- Batched insertion loop of importAppointments: unlike every other
loader this one wraps each batch in try/catch, so a failed batch only
adds its size to the failed counter and an entry to the error list,
and the loop continues with the next batch. -/
def importApptLoop (s : ApptLoop) : List (List ApptSrc) → ApptLoop
  | [] => s
  | b :: bs =>
    match apptBatch s.db b with
    | Except.ok st' =>
      importApptLoop { s with db := st', inserted := s.inserted + b.length } bs
    | Except.error e =>
      importApptLoop
        { s with
          failed := s.failed + b.length
          errors := s.errors ++ [batchErrorEntry b e] } bs

/-- Embeds importAppointments from the Supabase JSON import script; it
always runs to completion (result is ok) because batch failures are
caught and recorded. -/
def importAppointments (st : DbState) (records : List ApptSrc) :
    DbState × ImportOutcome :=
  let s := importApptLoop ⟨st, 0, 0, []⟩ (chunks BATCH_SIZE records)
  (s.db, ⟨s.inserted, s.failed, s.errors, Except.ok ()⟩)

/-! ## Verifier -/

/-- The Verifier comparison nextAppt lt 1900-01-01: only a non-null
valid stored date with year before 1900 matches (SQL NULL never
compares, and invalid dates cannot be stored). -/
def dateBefore1900 : Option JsDate → Bool
  | some (JsDate.valid d) => d.year < 1900
  | _ => false

/-- The Verifier count of client rows whose nextAppt is earlier than
1900-01-01. -/
def invalidNextApptCount (st : DbState) : Nat :=
  (st.clients.filter fun c => dateBefore1900 c.nextAppt).length

/-- The report printed by verifyImport: per-table row counts and the
sentinel-date defect count. -/
structure VerifyReport where
  appointmentTypeCount : Nat
  employeeCount : Nat
  timePeriodCount : Nat
  clientCount : Nat
  rateCount : Nat
  appointmentCount : Nat
  invalidDatesCount : Nat
deriving DecidableEq

/-- Embeds verifyImport from the Supabase JSON import script. -/
def verifyImport (st : DbState) : VerifyReport :=
  ⟨st.appointmentTypes.length, st.employees.length, st.timePeriods.length,
    st.clients.length, st.rates.length, st.appointments.length,
    invalidNextApptCount st⟩

/-! ## The main pipeline -/

def deleteManyAppointment (st : DbState) : DbState := { st with appointments := [] }

def deleteManyRate (st : DbState) : DbState := { st with rates := [] }

def deleteManyClient (st : DbState) : DbState := { st with clients := [] }

def deleteManyTimePeriod (st : DbState) : DbState := { st with timePeriods := [] }

def deleteManyEmployee (st : DbState) : DbState := { st with employees := [] }

def deleteManyAppointmentType (st : DbState) : DbState :=
  { st with appointmentTypes := [] }

/-- The table-clearing prologue of main, in the exact order of the six
deleteMany calls: Appointment, Rate, Client, TimePeriod, Employee,
AppointmentType. -/
def clearExistingData (st : DbState) : DbState :=
  deleteManyAppointmentType (deleteManyEmployee (deleteManyTimePeriod
    (deleteManyClient (deleteManyRate (deleteManyAppointment st)))))

/-- The seven destination tables, for stating ordering facts. -/
inductive TableName where
  | appointmentType
  | employee
  | timePeriod
  | client
  | rate
  | appointment
deriving DecidableEq

/-- The order of the deleteMany calls in main. -/
def clearOrder : List TableName :=
  [TableName.appointment, TableName.rate, TableName.client,
    TableName.timePeriod, TableName.employee, TableName.appointmentType]

/-- The order of the import calls in main. -/
def loadOrder : List TableName :=
  [TableName.appointmentType, TableName.employee, TableName.timePeriod,
    TableName.client, TableName.rate, TableName.appointment]

/-- The six JSON export files read by the import script. -/
structure SourceFiles where
  appointmentTypes : List ATSrc
  employees : List EmployeeSrc
  timePeriods : List TPSrc
  clients : List ClientSrc
  rates : List RateSrc
  appointments : List ApptSrc
deriving DecidableEq

/-- Embeds main from the Supabase JSON import script: clear every table
in reverse dependency order, then import in dependency order; the first
loader that throws aborts the run (the catch block reports and exits),
and importAppointments never throws. -/
def mainPipeline (input : SourceFiles) (st : DbState) :
    DbState × Except String Unit :=
  let st0 := clearExistingData st
  let (st1, o1) := importAppointmentTypes st0 input.appointmentTypes
  match o1.result with
  | Except.error e => (st1, Except.error e)
  | Except.ok _ =>
    let (st2, o2) := importEmployees st1 input.employees
    match o2.result with
    | Except.error e => (st2, Except.error e)
    | Except.ok _ =>
      let (st3, o3) := importTimePeriods st2 input.timePeriods
      match o3.result with
      | Except.error e => (st3, Except.error e)
      | Except.ok _ =>
        let (st4, o4) := importClients st3 input.clients
        match o4.result with
        | Except.error e => (st4, Except.error e)
        | Except.ok _ =>
          let (st5, o5) := importRates st4 input.rates
          match o5.result with
          | Except.error e => (st5, Except.error e)
          | Except.ok _ =>
            let (st6, _) := importAppointments st5 input.appointments
            let _ := verifyImport st6
            (st6, Except.ok ())

/-! ## The JSON export script -/

/-- The JSON artifact produced by the FOR JSON PATH query: either an
array of row objects or some non-array value. -/
inductive SqlJson where
  | arr (records : List JsVal)
  | scalar (v : JsVal)
deriving DecidableEq

/-- The record count of a parsed artifact: the array length, or 0 for
a non-array value (Array.isArray check). -/
def sqlJsonRecordCount : SqlJson → Nat
  | SqlJson.arr l => l.length
  | SqlJson.scalar _ => 0

/-- The observable outcome of one exportTableToJson call. -/
structure ExportOutcome where
  recordCount : Option Nat
  warnedMismatch : Bool
  written : Option SqlJson
  failed : Option String
deriving DecidableEq

/-- Embeds exportTableToJson from the JSON export script, from the point
where the sqlcmd output has been read back: parsed is the result of
JSON.parse on the cleaned file content.  A parse (or query) error is
rethrown; otherwise the record count is the array length (0 for a
non-array), a supplied expected count that is truthy (nonzero) and
different from the actual count produces a warning only, and the
formatted JSON artifact is always written. -/
def exportTableToJson (parsed : Except String SqlJson)
    (expectedRows : Option Nat) : ExportOutcome :=
  match parsed with
  | Except.error e =>
    { recordCount := none, warnedMismatch := false, written := none,
      failed := some e }
  | Except.ok json =>
    let recordCount := sqlJsonRecordCount json
    let warned := match expectedRows with
      | some n => (n != 0) && (recordCount != n)
      | none => false
    { recordCount := some recordCount, warnedMismatch := warned,
      written := some json, failed := none }

end Migration

namespace Migration

/-! ## Lemmas about batching -/

theorem chunksAux_fuel_eq (n : Nat) (hn : 0 < n) :
    ∀ (f1 f2 : Nat) (l : List α), l.length ≤ f1 → l.length ≤ f2 →
      chunksAux f1 n l = chunksAux f2 n l := by
  intro f1
  induction f1 with
  | zero =>
    intro f2 l h1 _
    have hl : l = [] := List.eq_nil_of_length_eq_zero (Nat.le_zero.mp h1)
    subst hl
    cases f2 <;> rfl
  | succ f ih =>
    intro f2 l h1 h2
    cases l with
    | nil => cases f2 <;> rfl
    | cons c cs =>
      cases f2 with
      | zero => simp at h2
      | succ f2' =>
        simp only [chunksAux]
        congr 1
        have hd : ((c :: cs).drop n).length = cs.length + 1 - n := by
          simp [List.length_drop]
        apply ih
        · rw [hd]
          simp only [List.length_cons] at h1
          omega
        · rw [hd]
          simp only [List.length_cons] at h2
          omega

theorem chunks_cons (n : Nat) (hn : 0 < n) (l : List α) (hl : l ≠ []) :
    chunks n l = l.take n :: chunks n (l.drop n) := by
  cases l with
  | nil => exact absurd rfl hl
  | cons c cs =>
    simp only [chunks, List.length_cons, chunksAux]
    congr 1
    apply chunksAux_fuel_eq n hn
    · simp [List.length_drop]
      omega
    · exact Nat.le_refl _

theorem chunksAux_join (n : Nat) (hn : 0 < n) :
    ∀ (f : Nat) (l : List α), l.length ≤ f → (chunksAux f n l).flatten = l := by
  intro f
  induction f with
  | zero =>
    intro l h
    have hl : l = [] := List.eq_nil_of_length_eq_zero (Nat.le_zero.mp h)
    subst hl
    rfl
  | succ f ih =>
    intro l h
    cases l with
    | nil => rfl
    | cons c cs =>
      simp only [chunksAux, List.flatten]
      rw [ih]
      · exact List.take_append_drop n (c :: cs)
      · simp only [List.length_drop, List.length_cons]
        simp only [List.length_cons] at h
        omega

theorem chunks_join (n : Nat) (hn : 0 < n) (l : List α) :
    (chunks n l).flatten = l :=
  chunksAux_join n hn l.length l (Nat.le_refl _)

theorem mem_of_mem_chunks (n : Nat) (hn : 0 < n) (l b : List α)
    (hb : b ∈ chunks n l) (x : α) (hx : x ∈ b) : x ∈ l := by
  rw [← chunks_join n hn l]
  exact List.mem_flatten.mpr ⟨b, hb, hx⟩

theorem chunks_split (n : Nat) (hn : 0 < n) (k : Nat) (l : List α) :
    chunks n l = chunks n (l.take (n * k)) ++ chunks n (l.drop (n * k)) := by
  induction k generalizing l with
  | zero =>
    simp [chunks, chunksAux]
  | succ k ih =>
    by_cases hl : l = []
    · subst hl
      simp [chunks, chunksAux]
    · rw [chunks_cons n hn l hl]
      have hpos : 0 < n * (k + 1) := Nat.mul_pos hn (Nat.succ_pos k)
      have htne : l.take (n * (k + 1)) ≠ [] := by
        intro h
        rcases List.take_eq_nil_iff.mp h with h0 | h0 <;>
          first
          | exact hl h0
          | omega
      rw [chunks_cons n hn _ htne]
      have h1 : (l.take (n * (k + 1))).take n = l.take n := by
        rw [List.take_take]
        congr 1
        exact Nat.min_eq_left (Nat.le_mul_of_pos_right n (Nat.succ_pos k))
      have h2 : (l.take (n * (k + 1))).drop n = (l.drop n).take (n * k) := by
        rw [List.drop_take]
        congr 1
        rw [Nat.mul_succ]
        exact Nat.add_sub_cancel (n * k) n
      have h3 : l.drop (n * (k + 1)) = (l.drop n).drop (n * k) := by
        rw [List.drop_drop]
        congr 1
        rw [Nat.mul_succ]
        exact Nat.add_comm (n * k) n
      rw [h1, h2, h3, ih (l.drop n)]
      simp

/-- If any element of the batch makes the callback throw, the whole map
phase throws. -/
theorem mapTransform_error_of_mem (f : α → Except String β) (l : List α)
    (r : α) (hmem : r ∈ l) (herr : ∃ m, f r = Except.error m) :
    ∃ e, mapTransform f l = Except.error e := by
  induction l with
  | nil => cases hmem
  | cons a t ih =>
    cases hmem with
    | head =>
      obtain ⟨m, hm⟩ := herr
      exact ⟨m, by simp [mapTransform, hm]⟩
    | tail _ h =>
      cases hfa : f a with
      | error e => exact ⟨e, by simp [mapTransform, hfa]⟩
      | ok b =>
        obtain ⟨e, he⟩ := ih h
        exact ⟨e, by simp [mapTransform, hfa, he]⟩

/-! ## Lemmas about parseDate and the Client loader -/

/-- parseDate never returns a valid date with a year before 1900. -/
theorem parseDate_year_ge (ds : Option String) (d : CalDate)
    (h : parseDate ds = some (JsDate.valid d)) : 1900 ≤ d.year := by
  cases ds with
  | none => simp [parseDate] at h
  | some s =>
    unfold parseDate at h
    by_cases h1 : s = "" ∨ s = "NULL"
    · simp [h1] at h
    · simp only [h1, if_false] at h
      by_cases h2 : isInvalidDate (some s) = true
      · simp [h2] at h
      · simp only [h2, if_false] at h
        cases hd : newDate (trimChars (beforeDot s.data)) with
        | invalid => simp [hd] at h
        | valid d' =>
          simp only [hd] at h
          by_cases h3 : d'.year < 1900
          · simp [h3] at h
          · simp only [h3, if_false] at h
            cases h
            omega

/-- Every parseDate result is null, the invalid object, or a valid date
with year at least 1900. -/
theorem parseDate_cases (ds : Option String) :
    parseDate ds = none ∨ parseDate ds = some JsDate.invalid ∨
      ∃ d, parseDate ds = some (JsDate.valid d) ∧ 1900 ≤ d.year := by
  cases h : parseDate ds with
  | none => exact Or.inl rfl
  | some jd =>
    cases jd with
    | invalid => exact Or.inr (Or.inl rfl)
    | valid d => exact Or.inr (Or.inr ⟨d, rfl, parseDate_year_ge ds d h⟩)

/-- A successful Client insert appends exactly the new row and implies
the row passed the invalid-date rejection on nextAppt. -/
theorem dbCreateClient_ok (st st' : DbState) (row : ClientRow)
    (h : dbCreateClient st row = Except.ok st') :
    st'.clients = st.clients ++ [row] ∧ validOptDate row.nextAppt = true := by
  unfold dbCreateClient at h
  split at h
  · cases h
  · split at h
    · cases h
    · split at h
      · cases h
      · split at h
        · cases h
        · rename_i hdates
          cases h
          refine ⟨rfl, ?_⟩
          push_neg at hdates
          have := hdates.2.2
          cases hv : validOptDate row.nextAppt
          · exact absurd hv this
          · rfl

/-- Rows present after a successful Client transaction are either
pre-existing or come from the inserted row list and passed the
invalid-date rejection. -/
theorem insertAll_client_mem (rows : List ClientRow) (st st' : DbState)
    (h : insertAll dbCreateClient st rows = Except.ok st') (c : ClientRow)
    (hc : c ∈ st'.clients) :
    c ∈ st.clients ∨ (c ∈ rows ∧ validOptDate c.nextAppt = true) := by
  induction rows generalizing st with
  | nil =>
    unfold insertAll at h
    cases h
    exact Or.inl hc
  | cons r rs ih =>
    unfold insertAll at h
    cases hr : dbCreateClient st r with
    | error e => rw [hr] at h; cases h
    | ok st1 =>
      rw [hr] at h
      obtain ⟨hcl, hvd⟩ := dbCreateClient_ok st st1 r hr
      rcases ih st1 h with h1 | h1
      · rw [hcl] at h1
        rcases List.mem_append.mp h1 with h2 | h2
        · exact Or.inl h2
        · have : c = r := by simpa using h2
          subst this
          exact Or.inr ⟨List.mem_cons_self _ _, hvd⟩
      · exact Or.inr ⟨List.mem_cons_of_mem _ h1.1, h1.2⟩

/-- Client rows present after the batched loop (whether it completed or
aborted) are either pre-existing or the transform of a processed source
record that passed the invalid-date rejection. -/
theorem importClientsLoop_mem (bs : List (List ClientSrc)) (st : DbState)
    (ins : Nat) (c : ClientRow)
    (hc : c ∈ (importClientsLoop st ins bs).1.clients) :
    c ∈ st.clients ∨
      ∃ r, (∃ b, b ∈ bs ∧ r ∈ b) ∧ c = clientTransform r ∧
        validOptDate c.nextAppt = true := by
  induction bs generalizing st ins with
  | nil =>
    exact Or.inl hc
  | cons b bs ih =>
    unfold importClientsLoop at hc
    cases hb : clientBatch st b with
    | error e =>
      rw [hb] at hc
      exact Or.inl hc
    | ok st1 =>
      rw [hb] at hc
      rcases ih st1 (ins + b.length) hc with h1 | h1
      · unfold clientBatch at hb
        rcases insertAll_client_mem _ st st1 hb c h1 with h2 | h2
        · exact Or.inl h2
        · obtain ⟨r, hr, hcr⟩ := List.mem_map.mp h2.1
          exact Or.inr ⟨r, ⟨b, List.mem_cons_self _ _, hr⟩, hcr.symm, h2.2⟩
      · obtain ⟨r, ⟨b', hb', hr⟩, hcr, hvd⟩ := h1
        exact Or.inr ⟨r, ⟨b', List.mem_cons_of_mem _ hb', hr⟩, hcr, hvd⟩

/-- Provenance for importClients: every client row present afterwards is
either pre-existing or the transform of one of the source records, and
in the latter case it passed the invalid-date rejection. -/
theorem importClients_mem (st : DbState) (records : List ClientSrc)
    (c : ClientRow) (hc : c ∈ (importClients st records).1.clients) :
    c ∈ st.clients ∨
      ∃ r, r ∈ records ∧ c = clientTransform r ∧
        validOptDate c.nextAppt = true := by
  rcases importClientsLoop_mem (chunks BATCH_SIZE records) st 0 c hc with h | h
  · exact Or.inl h
  · obtain ⟨r, ⟨b, hb, hr⟩, hcr, hvd⟩ := h
    exact Or.inr ⟨r, mem_of_mem_chunks BATCH_SIZE (by decide) records b hb r hr,
      hcr, hvd⟩

/-! ## Lemmas about the Appointment loader loop -/

theorem importApptLoop_append (cs1 cs2 : List (List ApptSrc)) (s : ApptLoop) :
    importApptLoop s (cs1 ++ cs2) = importApptLoop (importApptLoop s cs1) cs2 := by
  induction cs1 generalizing s with
  | nil => rfl
  | cons c cs ih =>
    cases hb : apptBatch s.db c with
    | ok st' =>
      simp only [List.cons_append, importApptLoop, hb]
      exact ih _
    | error e =>
      simp only [List.cons_append, importApptLoop, hb]
      exact ih _

theorem importApptLoop_shift (cs : List (List ApptSrc)) (db : DbState)
    (i f : Nat) (es : List ImportError) :
    importApptLoop ⟨db, i, f, es⟩ cs =
      ⟨(importApptLoop ⟨db, 0, 0, []⟩ cs).db,
        i + (importApptLoop ⟨db, 0, 0, []⟩ cs).inserted,
        f + (importApptLoop ⟨db, 0, 0, []⟩ cs).failed,
        es ++ (importApptLoop ⟨db, 0, 0, []⟩ cs).errors⟩ := by
  induction cs generalizing db i f es with
  | nil => simp [importApptLoop]
  | cons c cs ih =>
    cases hb : apptBatch db c with
    | ok st' =>
      simp only [importApptLoop, hb]
      rw [ih st' (i + c.length) f es]
      simp only [Nat.zero_add, List.nil_append]
      rw [ih st' c.length 0 []]
      simp [ApptLoop.mk.injEq, Nat.add_assoc]
    | error e =>
      simp only [importApptLoop, hb]
      rw [ih db i (f + c.length) (es ++ [batchErrorEntry c e])]
      simp only [Nat.zero_add, List.nil_append]
      rw [ih db 0 c.length [batchErrorEntry c e]]
      simp [ApptLoop.mk.injEq, Nat.add_assoc]

theorem importApptLoop_counts (cs : List (List ApptSrc)) (s : ApptLoop) :
    (importApptLoop s cs).inserted + (importApptLoop s cs).failed =
      s.inserted + s.failed + (cs.map List.length).sum := by
  induction cs generalizing s with
  | nil => simp [importApptLoop]
  | cons c cs ih =>
    cases hb : apptBatch s.db c with
    | ok st' =>
      simp only [importApptLoop, hb]
      rw [ih]
      simp
      omega
    | error e =>
      simp only [importApptLoop, hb]
      rw [ih]
      simp
      omega

/-! ## Claim theorems -/

/-- The year-zero sentinel date and the textual renderings it takes in
the SQL Server exports (date-only, datetime with and without fractional
seconds, and the legacy month-name rendering matched by isInvalidDate). -/
def sentinelRenderings : List String :=
  ["0001-01-01", "0001-01-01 00:00:00", "0001-01-01 00:00:00.0000000",
    "Jan  1 0001", "Jan  1 0001 12:00AM"]

/-- C1: for every client record imported by importClients, if the source
Next_Appt field equals the year-zero sentinel date 0001-01-01 (or one of
its textual renderings), the nextAppt value the loader stores is null;
and every client row present after an importClients run is either
pre-existing or the clientTransform image of a source record, so the
literal sentinel date is never stored. -/
theorem importClients_sentinel_nextAppt_null (st : DbState)
    (records : List ClientSrc) (r : ClientSrc) (s : String)
    (h1 : r.Next_Appt = some s) (h2 : s ∈ sentinelRenderings) :
    (clientTransform r).nextAppt = none ∧
    ∀ c ∈ (importClients st records).1.clients,
      c ∈ st.clients ∨ ∃ rec, rec ∈ records ∧ c = clientTransform rec := by
  constructor
  · have hnull : parseDate (some s) = none := by
      fin_cases h2 <;> decide
    show parseDate r.Next_Appt = none
    rw [h1]
    exact hnull
  · intro c hc
    rcases importClients_mem st records c hc with h | ⟨rec, hrec, hcr, _⟩
    · exact Or.inl h
    · exact Or.inr ⟨rec, hrec, hcr⟩

/-- A client record whose Next_Appt is the raw sentinel rendering. -/
def sentinelClientRec : ClientSrc :=
  { ID := 7593, EmployeeID := JsVal.vNull, Client_Name := JsVal.vNull,
    TxPlan := JsVal.vNull, NPP := JsVal.vNull, Consent := JsVal.vNull,
    Loaded := JsVal.vNull, Email := JsVal.vNull, Created := none,
    Updated := none, Next_Appt := some "0001-01-01 00:00:00.0000000",
    Active := JsVal.vNull, ClientSP_ID := JsVal.vNull,
    HashedID := JsVal.vNull, EmployeeSP_ID := JsVal.vNull,
    Appt_TypeID := JsVal.vNum 1, Type' := JsVal.vNull }

/-- Witness for the C1 theorem at a concrete sentinel-bearing record. -/
theorem importClients_sentinel_nextAppt_null_witness :
    (clientTransform sentinelClientRec).nextAppt = none ∧
    ∀ c ∈ (importClients emptyDb [sentinelClientRec]).1.clients,
      c ∈ emptyDb.clients ∨
        ∃ rec, rec ∈ [sentinelClientRec] ∧ c = clientTransform rec :=
  importClients_sentinel_nextAppt_null emptyDb [sentinelClientRec]
    sentinelClientRec "0001-01-01 00:00:00.0000000" rfl (by decide)

/-- C2 (documenting the defect): the source string
2021-01-01 00:00:00.0000000 denotes the real post-1900 calendar date
2021-01-01 - the engine date parser itself accepts its cleaned form -
yet parseDate returns null for it, because isInvalidDate matches the
substring 1-01-01, which occurs in every January 1 of a year ending in
the digit 1. -/
theorem parseDate_nulls_valid_post1900_date :
    parseDate (some "2021-01-01 00:00:00.0000000") = none ∧
    newDate (trimChars (beforeDot "2021-01-01 00:00:00.0000000".data)) =
      JsDate.valid ⟨2021, 1, 1, 0, 0, 0⟩ ∧
    isInvalidDate (some "2021-01-01 00:00:00.0000000") = true ∧
    jsIncludes "2021-01-01 00:00:00.0000000" "1-01-01" = true ∧
    jsIncludes "2021-01-01 00:00:00.0000000" "0001-01-01" = false := by
  refine ⟨by decide, by decide, by decide, by decide, by decide⟩

/-- C7: main clears the six destination tables in exactly the reverse of
the load order before any table is loaded, so the pipeline result does
not depend on the prior destination state, and running the whole
clear-then-load pipeline twice on the same input reproduces the same
destination contents. -/
theorem mainPipeline_clear_then_load_idempotent (input : SourceFiles)
    (st : DbState) :
    clearOrder = loadOrder.reverse ∧
    mainPipeline input st = mainPipeline input emptyDb ∧
    mainPipeline input (mainPipeline input st).1 = mainPipeline input st :=
  ⟨by decide, rfl, rfl⟩

/-- C9 counterexample: formatDate (direct SQL Server migration script)
and parseDate (JSON import script) are not extensionally equal - on the
pre-1900 date 1899-06-15 parseDate applies its year-1900 backstop and
returns null while formatDate returns the date. -/
theorem parseDate_formatDate_not_extensionally_equal :
    parseDate (some "1899-06-15 00:00:00") ≠
      formatDate (some "1899-06-15 00:00:00") := by decide

/-- C9 amended: the two date normalizers agree on null input and on any
rendering containing the sentinel substring 0001-01-01, but they are not
extensionally equal: parseDate also applies a year-1900 backstop and a
NULL-string check that formatDate lacks. -/
theorem parseDate_formatDate_partial_agreement (s : String)
    (h : jsIncludes s "0001-01-01" = true) :
    parseDate (some s) = none ∧ formatDate (some s) = none ∧
    parseDate none = formatDate none ∧
    parseDate (some "1899-06-15 00:00:00") = none ∧
    formatDate (some "1899-06-15 00:00:00") =
      some (JsDate.valid ⟨1899, 6, 15, 0, 0, 0⟩) ∧
    parseDate (some "NULL") = none ∧
    formatDate (some "NULL") = some JsDate.invalid := by
  refine ⟨?_, ?_, rfl, by decide, by decide, by decide, by decide⟩
  · unfold parseDate
    by_cases h1 : s = "" ∨ s = "NULL"
    · simp [h1]
    · have h2 : isInvalidDate (some s) = true := by
        unfold isInvalidDate
        have hne : ¬ s = "" := fun he => h1 (Or.inl he)
        simp [hne, h]
      simp [h1, h2]
  · unfold formatDate
    by_cases h1 : s = ""
    · subst h1
      exact absurd h (by decide)
    · simp [h1, h]

/-- Witness for the C9 amended theorem at a concrete sentinel string. -/
theorem parseDate_formatDate_partial_agreement_witness :
    parseDate (some "0001-01-01 00:00:00") = none ∧
    formatDate (some "0001-01-01 00:00:00") = none ∧
    parseDate none = formatDate none ∧
    parseDate (some "1899-06-15 00:00:00") = none ∧
    formatDate (some "1899-06-15 00:00:00") =
      some (JsDate.valid ⟨1899, 6, 15, 0, 0, 0⟩) ∧
    parseDate (some "NULL") = none ∧
    formatDate (some "NULL") = some JsDate.invalid :=
  parseDate_formatDate_partial_agreement "0001-01-01 00:00:00" (by decide)

/-- A minimal client record with a given primary key, referencing
appointment type 1. -/
def mkClientRec (i : Int) : ClientSrc :=
  { ID := i, EmployeeID := JsVal.vNull, Client_Name := JsVal.vNull,
    TxPlan := JsVal.vNull, NPP := JsVal.vNull, Consent := JsVal.vNull,
    Loaded := JsVal.vNull, Email := JsVal.vNull, Created := none,
    Updated := none, Next_Appt := none, Active := JsVal.vNull,
    ClientSP_ID := JsVal.vNull, HashedID := JsVal.vNull,
    EmployeeSP_ID := JsVal.vNull, Appt_TypeID := JsVal.vNum 1,
    Type' := JsVal.vNull }

/-- An existing AppointmentType parent row with id 1. -/
def atParent : ATRow :=
  { id := 1, code := none, apptType := none, description := none,
    typeIdForRate := none }

/-- A destination state holding only the AppointmentType parent. -/
def stA : DbState := { emptyDb with appointmentTypes := [atParent] }

/-- 1002 client records: the second record duplicates the primary key of
the first (a database constraint violation inside batch 1), and the
records at positions 1000 and 1001 form a well-formed second batch. -/
def c3recs : List ClientSrc :=
  mkClientRec 0 :: mkClientRec 0 ::
    (List.range 1000).map (fun i => mkClientRec (Int.ofNat i + 2))

set_option maxRecDepth 400000 in
/-- C3 counterexample: the Client load has no per-batch failure
isolation.  On 1002 records whose first batch contains one duplicate-key
record, importClients throws: the run aborts with the first batch, no
row at all is inserted (the well-formed records of batch 1 are rolled
back and batch 2 is never reached), although the batch-2 record would
insert fine on its own.  This refutes the claim for every table load;
only the Appointment load isolates batch failures. -/
theorem importClients_batch_failure_aborts_run :
    1000 < c3recs.length ∧
    (importClients stA c3recs).2.result.isOk = false ∧
    (importClients stA c3recs).1.clients = [] ∧
    mkClientRec 1001 ∈ c3recs ∧
    (importClients stA [mkClientRec 1001]).2.result.isOk = true ∧
    (importClients stA [mkClientRec 1001]).1.clients =
      [clientTransform (mkClientRec 1001)] := by
  refine ⟨by decide, by decide, by decide, by decide, by decide, by decide⟩

/-- C3 amended: the Appointment load (and only that load - see the
counterexample for importClients) isolates batch failures: it always
runs to completion, every record is counted in exactly one batch
outcome (inserted or failed), and processing any first group of batches
- failures included - neither aborts nor changes how the remaining
batches are processed: the loader simply continues from the reached
state, accumulating the error entries of the failed batches. -/
theorem importAppointments_batch_failure_isolation (st : DbState)
    (records : List ApptSrc) (k : Nat) :
    (importAppointments st records).2.result = Except.ok () ∧
    (importAppointments st records).2.inserted +
      (importAppointments st records).2.failed = records.length ∧
    (importAppointments st records).1 =
      (importAppointments (importAppointments st
        (records.take (BATCH_SIZE * k))).1 (records.drop (BATCH_SIZE * k))).1 ∧
    (importAppointments st records).2.errors =
      (importAppointments st (records.take (BATCH_SIZE * k))).2.errors ++
        (importAppointments (importAppointments st
          (records.take (BATCH_SIZE * k))).1 (records.drop (BATCH_SIZE * k))).2.errors := by
  have hB : (0 : Nat) < BATCH_SIZE := by decide
  refine ⟨rfl, ?_, ?_⟩
  · show (importApptLoop ⟨st, 0, 0, []⟩ (chunks BATCH_SIZE records)).inserted +
      (importApptLoop ⟨st, 0, 0, []⟩ (chunks BATCH_SIZE records)).failed =
      records.length
    rw [importApptLoop_counts]
    simp only [Nat.zero_add, Nat.add_zero]
    calc ((chunks BATCH_SIZE records).map List.length).sum
        = (chunks BATCH_SIZE records).flatten.length :=
          (List.length_flatten _).symm
      _ = records.length := by rw [chunks_join BATCH_SIZE hB records]
  · simp only [importAppointments]
    rw [chunks_split BATCH_SIZE hB k records, importApptLoop_append]
    generalize importApptLoop ⟨st, 0, 0, []⟩
      (chunks BATCH_SIZE (records.take (BATCH_SIZE * k))) = s1
    obtain ⟨db1, i1, f1, e1⟩ := s1
    rw [importApptLoop_shift (chunks BATCH_SIZE (records.drop (BATCH_SIZE * k)))
      db1 i1 f1 e1]
    simp

/-- The condition under which the per-record validation of
importAppointments fails: Duration missing (falsy and not the number 0)
or one of the three core dates missing or unparseable. -/
def apptValidationFails (record : ApptSrc) : Prop :=
  (truthy record.Duration = false ∧ record.Duration ≠ JsVal.vNum 0) ∨
  parseDate record.Appt_Date = none ∨
  parseDate record.Created = none ∨
  parseDate record.Updated = none

/-- C4: the loader validates the NOT NULL fields Duration, Appt_Date,
Created and Updated before inserting an appointment record: a record
failing the validation makes its per-record transform throw, the map
phase of its batch throw, and the batch as a whole fail - the loop
leaves the destination untouched for that batch, counts the whole batch
as failed and records one error entry, instead of inserting the
record. -/
theorem importAppointments_required_field_validation (st : DbState)
    (batch : List ApptSrc) (r : ApptSrc) (hmem : r ∈ batch)
    (hbad : apptValidationFails r) :
    (∃ msg, apptTransform r = Except.error msg) ∧
    (∃ e, apptBatch st batch = Except.error e) ∧
    (∀ i f es, ∃ err, importApptLoop ⟨st, i, f, es⟩ [batch] =
      ⟨st, i, f + batch.length, es ++ [err]⟩) := by
  have htr : ∃ msg, apptTransform r = Except.error msg := by
    by_cases hdur : truthy r.Duration = false ∧ r.Duration ≠ JsVal.vNum 0
    · exact ⟨"Record " ++ toString r.ID ++ ": Missing required field Duration",
        by simp [apptTransform, hdur]⟩
    · cases hA : parseDate r.Appt_Date with
      | none => exact ⟨"Record " ++ toString r.ID ++ ": Invalid or missing Appt_Date",
          by simp [apptTransform, hdur, hA]⟩
      | some a =>
        cases hC : parseDate r.Created with
        | none => exact ⟨"Record " ++ toString r.ID ++ ": Invalid or missing Created date",
            by simp [apptTransform, hdur, hA, hC]⟩
        | some c =>
          cases hU : parseDate r.Updated with
          | none => exact ⟨"Record " ++ toString r.ID ++ ": Invalid or missing Updated date",
              by simp [apptTransform, hdur, hA, hC, hU]⟩
          | some u =>
            rcases hbad with h | h | h | h
            · exact absurd h hdur
            · rw [hA] at h; cases h
            · rw [hC] at h; cases h
            · rw [hU] at h; cases h
  have hbatch : ∃ e, apptBatch st batch = Except.error e := by
    obtain ⟨e, he⟩ := mapTransform_error_of_mem apptTransform batch r hmem htr
    exact ⟨e, by simp [apptBatch, he]⟩
  refine ⟨htr, hbatch, ?_⟩
  intro i f es
  obtain ⟨e, he⟩ := hbatch
  exact ⟨batchErrorEntry batch e, by simp [importApptLoop, he]⟩

/-- An appointment record missing its required Duration field. -/
def c4BadAppt : ApptSrc :=
  { ID := 5, ClientID := JsVal.vNum 1, EmployeeID := JsVal.vNum 1,
    RateID := JsVal.vNull, ApptSP_ID := JsVal.vNull,
    Appt_TypeID := JsVal.vNull, Appt_Date := some "2020-05-11 00:00:00",
    Units := JsVal.vNull, Clinician_Amount := JsVal.vNull,
    Client_Payment_Status := JsVal.vNull, Duration := JsVal.vNull,
    HasProgressNote := JsVal.vNull, Created := some "2020-05-11 00:00:00",
    Updated := some "2020-05-11 00:00:00", Client_Charge := JsVal.vNull,
    Flagged := JsVal.vNull, Client_Payment_Status_Desc := JsVal.vNull,
    Vacation_Hours := JsVal.vNull, Bonus := JsVal.vNull,
    Correction_Payment := JsVal.vNull, Personal_Note := JsVal.vNull,
    Reimbursement := JsVal.vNull, Comments := JsVal.vNull }

/-- Witness for the C4 theorem at a concrete record with a missing
Duration. -/
theorem importAppointments_required_field_validation_witness :
    (∃ msg, apptTransform c4BadAppt = Except.error msg) ∧
    (∃ e, apptBatch emptyDb [c4BadAppt] = Except.error e) ∧
    (∀ i f es, ∃ err, importApptLoop ⟨emptyDb, i, f, es⟩ [[c4BadAppt]] =
      ⟨emptyDb, i, f + [c4BadAppt].length, es ++ [err]⟩) :=
  importAppointments_required_field_validation emptyDb [c4BadAppt] c4BadAppt
    (by decide) (Or.inl ⟨by decide, by decide⟩)

/-- C5 counterexample: for Rate.GustoID the claim fails.  A rate record
whose GustoID is present but does not parse as a BigInt makes the
unguarded conversion throw: the transform errors, the Rate load aborts,
and the record is never inserted (with or without a null gustoId). -/
def badRate : RateSrc :=
  { ID := 1, Rate := JsVal.vNull, EmployeeID := JsVal.vNull,
    Start_Date := some "2024-01-01", Active := JsVal.vNull,
    RateType := JsVal.vNull, End_Date := none, Appt_TypeID := JsVal.vNull,
    GustoID := JsVal.vStr "12abc" }

/-- C5 counterexample theorem (see badRate). -/
theorem importRates_gustoId_parse_failure_aborts :
    truthy badRate.GustoID = true ∧
    jsBigInt badRate.GustoID = none ∧
    (importRates emptyDb [badRate]).2.result.isOk = false ∧
    (importRates emptyDb [badRate]).1.rates = [] := by
  refine ⟨by decide, by decide, by decide, by decide⟩

/-- C5 amended: the two big-identifier fields are treated differently.
For Appointment.ApptSP_ID the conversion is wrapped in try/catch, so a
present but unparseable value degrades to a null apptSpId on the built
row and the insert still proceeds; for Rate.GustoID the conversion is
unguarded, so the same situation makes the per-record transform throw,
aborting the record (and with it the Rate batch). -/
theorem bigIdentifier_parse_failure_behavior (r : ApptSrc) (rt : RateSrc)
    (h1 : (apptTransform r).isOk = true)
    (h2 : truthy r.ApptSP_ID = true) (h3 : jsBigInt r.ApptSP_ID = none)
    (h4 : truthy rt.GustoID = true) (h5 : jsBigInt rt.GustoID = none) :
    (∃ row, apptTransform r = Except.ok row ∧ row.apptSpId = none) ∧
    (∃ msg, rateTransform rt = Except.error msg) := by
  constructor
  · cases hr : apptTransform r with
    | error e => rw [hr] at h1; simp [Except.isOk, Except.toBool] at h1
    | ok row =>
      refine ⟨row, rfl, ?_⟩
      unfold apptTransform at hr
      by_cases hdur : truthy r.Duration = false ∧ r.Duration ≠ JsVal.vNum 0
      · simp [hdur] at hr
      · simp only [if_neg hdur] at hr
        cases hA : parseDate r.Appt_Date with
        | none => rw [hA] at hr; simp at hr
        | some a =>
          cases hC : parseDate r.Created with
          | none => rw [hA, hC] at hr; simp at hr
          | some c =>
            cases hU : parseDate r.Updated with
            | none => rw [hA, hC, hU] at hr; simp at hr
            | some u =>
              rw [hA, hC, hU] at hr
              simp only [Except.ok.injEq] at hr
              rw [← hr]
              simp [h2, h3]
  · cases hsd : rt.Start_Date with
    | none => exact ⟨"TypeError: cannot read split of null Start_Date",
        by simp [rateTransform, hsd]⟩
    | some s =>
      refine ⟨"SyntaxError: cannot convert " ++ jsValToString rt.GustoID ++
        " to a BigInt", ?_⟩
      simp [rateTransform, hsd, h4, h5]

/-- A valid appointment record whose ApptSP_ID is present but does not
parse as a BigInt. -/
def c5Appt : ApptSrc :=
  { ID := 7, ClientID := JsVal.vNum 1, EmployeeID := JsVal.vNum 1,
    RateID := JsVal.vNull, ApptSP_ID := JsVal.vStr "not-a-number",
    Appt_TypeID := JsVal.vNull, Appt_Date := some "2020-05-11 00:00:00",
    Units := JsVal.vNull, Clinician_Amount := JsVal.vNull,
    Client_Payment_Status := JsVal.vNull, Duration := JsVal.vNum 60,
    HasProgressNote := JsVal.vNull, Created := some "2020-05-11 00:00:00",
    Updated := some "2020-05-11 00:00:00", Client_Charge := JsVal.vNull,
    Flagged := JsVal.vNull, Client_Payment_Status_Desc := JsVal.vNull,
    Vacation_Hours := JsVal.vNull, Bonus := JsVal.vNull,
    Correction_Payment := JsVal.vNull, Personal_Note := JsVal.vNull,
    Reimbursement := JsVal.vNull, Comments := JsVal.vNull }

/-- Witness for the C5 amended theorem at concrete records. -/
theorem bigIdentifier_parse_failure_behavior_witness :
    (∃ row, apptTransform c5Appt = Except.ok row ∧ row.apptSpId = none) ∧
    (∃ msg, rateTransform badRate = Except.error msg) :=
  bigIdentifier_parse_failure_behavior c5Appt badRate (by decide) (by decide)
    (by decide) (by decide) (by decide)

/-- C6 counterexample: an expected row count of 0 is falsy, so a count
mismatch against it produces no warning - exportTableToJson stays
silent although the exported count 1 differs from the expected 0 (the
artifact is still written and no error is raised). -/
theorem exportTableToJson_zero_expected_count_no_warning :
    sqlJsonRecordCount (SqlJson.arr [JsVal.vNum 1]) ≠ 0 ∧
    (exportTableToJson (Except.ok (SqlJson.arr [JsVal.vNum 1]))
      (some 0)).warnedMismatch = false ∧
    (exportTableToJson (Except.ok (SqlJson.arr [JsVal.vNum 1]))
      (some 0)).failed = none ∧
    (exportTableToJson (Except.ok (SqlJson.arr [JsVal.vNum 1]))
      (some 0)).written = some (SqlJson.arr [JsVal.vNum 1]) := by
  refine ⟨by decide, by decide, by decide, by decide⟩

/-- C6 amended: when exportTableToJson is called with a nonzero expected
row count that differs from the number of records actually exported, it
emits a warning and continues normally: for a successfully parsed
artifact no error is ever raised - whatever the expected count - and
the formatted artifact is always written. -/
theorem exportTableToJson_mismatch_warns_and_continues (json : SqlJson)
    (n : Nat) (hn : n ≠ 0) (hm : sqlJsonRecordCount json ≠ n) :
    (exportTableToJson (Except.ok json) (some n)).warnedMismatch = true ∧
    (∀ m : Option Nat, (exportTableToJson (Except.ok json) m).failed = none ∧
      (exportTableToJson (Except.ok json) m).written = some json) := by
  constructor
  · simp [exportTableToJson, hn, hm]
  · intro m
    cases m <;> simp [exportTableToJson]

/-- Witness for the C6 amended theorem at a concrete artifact. -/
theorem exportTableToJson_mismatch_warns_and_continues_witness :
    (exportTableToJson (Except.ok (SqlJson.arr [JsVal.vNum 1]))
      (some 30)).warnedMismatch = true ∧
    (∀ m : Option Nat,
      (exportTableToJson (Except.ok (SqlJson.arr [JsVal.vNum 1])) m).failed =
        none ∧
      (exportTableToJson (Except.ok (SqlJson.arr [JsVal.vNum 1])) m).written =
        some (SqlJson.arr [JsVal.vNum 1])) :=
  exportTableToJson_mismatch_warns_and_continues (SqlJson.arr [JsVal.vNum 1])
    30 (by decide) (by decide)

/-- C8: after any importClients run on a cleared destination, every
stored nextAppt value is either null or a valid date with year at least
1900 (parseDate nulls pre-1900 dates and the database rejects invalid
date objects), and therefore the Verifier count of client rows with a
nextAppt earlier than 1900-01-01 is zero. -/
theorem importClients_no_pre1900_nextAppt (st : DbState)
    (records : List ClientSrc) (h : st.clients = []) :
    (∀ c ∈ (importClients st records).1.clients,
      c.nextAppt = none ∨
        ∃ d, c.nextAppt = some (JsDate.valid d) ∧ 1900 ≤ d.year) ∧
    invalidNextApptCount (importClients st records).1 = 0 := by
  have hp : ∀ c ∈ (importClients st records).1.clients,
      c.nextAppt = none ∨
        ∃ d, c.nextAppt = some (JsDate.valid d) ∧ 1900 ≤ d.year := by
    intro c hc
    rcases importClients_mem st records c hc with hmem | ⟨r, _, hcr, hvd⟩
    · rw [h] at hmem
      cases hmem
    · subst hcr
      have hnx : (clientTransform r).nextAppt = parseDate r.Next_Appt := rfl
      rcases parseDate_cases r.Next_Appt with h0 | h0 | ⟨d, hd, hy⟩
      · exact Or.inl (by rw [hnx, h0])
      · rw [hnx, h0] at hvd
        simp [validOptDate] at hvd
      · exact Or.inr ⟨d, by rw [hnx, hd], hy⟩
  refine ⟨hp, ?_⟩
  unfold invalidNextApptCount
  rw [List.length_eq_zero, List.filter_eq_nil_iff]
  intro c hc
  rcases hp c hc with h0 | ⟨d, hd, hy⟩
  · simp [dateBefore1900, h0]
  · simp only [hd, dateBefore1900]
    simp
    omega

/-- Witness for the C8 theorem at a concrete run containing a sentinel
record. -/
theorem importClients_no_pre1900_nextAppt_witness :
    (∀ c ∈ (importClients emptyDb [sentinelClientRec]).1.clients,
      c.nextAppt = none ∨
        ∃ d, c.nextAppt = some (JsDate.valid d) ∧ 1900 ≤ d.year) ∧
    invalidNextApptCount (importClients emptyDb [sentinelClientRec]).1 = 0 :=
  importClients_no_pre1900_nextAppt emptyDb [sentinelClientRec] rfl

/-- C10: both importEmployees and importRates normalize the active flag
to the integer 1 exactly when the source value is the boolean true or
the number 1, and to the integer 0 for every other value (null, missing,
strings, other numbers) - the stored value is always 0 or 1, never null
and never the raw source value. -/
theorem active_flag_normalized (e : EmployeeSrc) (rt : RateSrc)
    (h : (rateTransform rt).isOk = true) :
    ((employeeTransform e).active = 0 ∨ (employeeTransform e).active = 1) ∧
    (e.Active ≠ JsVal.vBool true → e.Active ≠ JsVal.vNum 1 →
      (employeeTransform e).active = 0) ∧
    (∃ row, rateTransform rt = Except.ok row ∧
      (row.active = 0 ∨ row.active = 1) ∧
      (rt.Active ≠ JsVal.vBool true → rt.Active ≠ JsVal.vNum 1 →
        row.active = 0)) := by
  refine ⟨?_, ?_, ?_⟩
  · cases hb : (e.Active == JsVal.vBool true || e.Active == JsVal.vNum 1)
    · exact Or.inl (by simp [employeeTransform, hb])
    · exact Or.inr (by simp [employeeTransform, hb])
  · intro h1 h2
    have hb : (e.Active == JsVal.vBool true || e.Active == JsVal.vNum 1) = false := by
      simp [h1, h2]
    simp [employeeTransform, hb]
  · cases hrt : rateTransform rt with
    | error er => rw [hrt] at h; simp [Except.isOk, Except.toBool] at h
    | ok row =>
      have hact : row.active =
          if rt.Active == JsVal.vBool true || rt.Active == JsVal.vNum 1
            then 1 else 0 := by
        cases hsd : rt.Start_Date with
        | none =>
          simp only [rateTransform, hsd] at hrt
          cases hrt
        | some s =>
          simp only [rateTransform, hsd] at hrt
          by_cases hg : truthy rt.GustoID = true
          · rw [if_pos hg] at hrt
            cases hbig : jsBigInt rt.GustoID with
            | none => rw [hbig] at hrt; cases hrt
            | some n =>
              rw [hbig] at hrt
              cases hrt
              rfl
          · rw [if_neg hg] at hrt
            cases hrt
            rfl
      refine ⟨row, rfl, ?_, ?_⟩
      · rw [hact]
        cases hb : (rt.Active == JsVal.vBool true || rt.Active == JsVal.vNum 1)
        · exact Or.inl (by simp [hb])
        · exact Or.inr (by simp [hb])
      · intro h1 h2
        have hb : (rt.Active == JsVal.vBool true || rt.Active == JsVal.vNum 1) = false := by
          simp [h1, h2]
        rw [hact]
        simp [hb]

/-- A rate record with a null Active flag (and no GustoID). -/
def inactiveRate : RateSrc :=
  { ID := 2, Rate := JsVal.vNull, EmployeeID := JsVal.vNull,
    Start_Date := some "2024-01-01", Active := JsVal.vNull,
    RateType := JsVal.vNull, End_Date := none, Appt_TypeID := JsVal.vNull,
    GustoID := JsVal.vNull }

/-- An employee record with a null Active flag. -/
def inactiveEmployee : EmployeeSrc :=
  { ID := 3, Name := JsVal.vNull, Email := JsVal.vNull,
    Active := JsVal.vNull, Start_Date := none,
    EmployeeSP_ID := JsVal.vNull, LastName := JsVal.vNull,
    FirstName := JsVal.vNull, PayType := JsVal.vNull, GustoId := JsVal.vNull }

/-- Witness for the C10 theorem at concrete records. -/
theorem active_flag_normalized_witness :
    ((employeeTransform inactiveEmployee).active = 0 ∨
      (employeeTransform inactiveEmployee).active = 1) ∧
    (inactiveEmployee.Active ≠ JsVal.vBool true →
      inactiveEmployee.Active ≠ JsVal.vNum 1 →
      (employeeTransform inactiveEmployee).active = 0) ∧
    (∃ row, rateTransform inactiveRate = Except.ok row ∧
      (row.active = 0 ∨ row.active = 1) ∧
      (inactiveRate.Active ≠ JsVal.vBool true →
        inactiveRate.Active ≠ JsVal.vNum 1 → row.active = 0)) :=
  active_flag_normalized inactiveEmployee inactiveRate (by decide)
